import Mathlib

/-!
Shallow embedding of the plan-execution core of the multi-agent chatbot
repository: the shared agent state (app/agents/state.py), the dependency-gated
executor (app/services/orchestrator.py), the data-retrieval validation gate and
handler (app/agents/data_agent.py), the analysis and visualization handlers
(app/agents/analysis_agent.py, app/agents/visualization_agent.py) and the
synthesis stage (app/agents/synthesis_agent.py).

External collaborators (the DuckDB backend, the pandas numeric computations,
the plotly chart builders and the LLM completion service) are modelled as an
explicit record of oracle functions (`Collab`); everything the core itself
does — control flow, validation rules, state merging, error recording — is
translated directly from the Python source.
-/

namespace Chatbot

/-- Python `str.lower` on the ASCII range, as applied to query strings and
step descriptions in the source. -/
def lowerChar (c : Char) : Char :=
  if 'A' ≤ c ∧ c ≤ 'Z' then Char.ofNat (c.toNat + 32) else c

/-- Lowercase a whole string, character by character. -/
def lower (s : String) : String := ⟨s.data.map lowerChar⟩

/-- Whether `needle` is a prefix of `hay` (character lists). -/
def isPrefList : List Char → List Char → Bool
  | [], _ => true
  | _ :: _, [] => false
  | a :: as, b :: bs => a == b && isPrefList as bs

/-- Whether `needle` occurs as a contiguous substring of the character list,
Python `needle in hay`. -/
def isSubList (needle : List Char) : List Char → Bool
  | [] => needle.isEmpty
  | c :: t => isPrefList needle (c :: t) || isSubList needle t

/-- Python substring test `needle in hay` on strings. -/
def strContains (hay needle : String) : Bool := isSubList needle.data hay.data

/-- `AgentType` enumeration from app/agents/state.py. -/
inductive AgentType
  | intent
  | planner
  | data_retrieval
  | analysis
  | visualization
  | synthesis
deriving DecidableEq

/-- One record of tabular data (a pandas row rendered as column/value pairs;
the scalar payloads are opaque to the core, so cells are kept as strings). -/
abbrev TRow := List (String × String)

/-- The record list a DataFrame is built from (`df.to_dict` with records). -/
abbrev Rows := List TRow

/-- The result dictionary a successful retrieval step appends to
`query_results` (data_agent.py lines 61-67). -/
structure QueryResult where
  step_id : Int
  sql_query : String
  data : Rows
  row_count : Nat
  columns : List String
deriving DecidableEq

/-- `computed_metrics`: a string-keyed mapping with insertion order, as a
Python dict.  Metric values are opaque to the core. -/
abbrev Metrics := List (String × String)

/-- Python `dict.update`: existing keys keep their position and take the new
value, new keys are appended in the order of the delta. -/
def dictUpdate (m delta : Metrics) : Metrics :=
  (m.map (fun kv =>
    match delta.find? (fun kv2 => kv2.1 == kv.1) with
    | some kv2 => (kv.1, kv2.2)
    | none => kv))
  ++ delta.filter (fun kv2 => !(m.any (fun kv => kv.1 == kv2.1)))

/-- The chart payload stored into `chart_config`
(visualization_agent.py lines 51-55). -/
structure ChartConfig where
  type : String
  data : String
  html : String
deriving DecidableEq

/-- The `result` payload of a step: initially the SQL string for retrieval
steps, after execution the handler-specific output. -/
inductive StepResult
  | query (q : String)
  | retrieval (r : QueryResult)
  | metrics (m : Metrics)
  | chart (c : ChartConfig)
deriving DecidableEq

/-- `ExecutionStep` from app/agents/state.py. -/
structure ExecutionStep where
  step_id : Int
  agent_type : AgentType
  description : String
  dependencies : List Int
  completed : Bool
  result : Option StepResult
  error : Option String
deriving DecidableEq

/-- The `response_metadata` dictionary written by synthesis
(synthesis_agent.py lines 66-70); `none` models the initial empty dict. -/
structure RespMeta where
  queries_executed : Nat
  rows_processed : Nat
  has_visualization : Bool
deriving DecidableEq

/-- `AgentState` from app/agents/state.py, restricted to the fields the
executor, the step handlers and synthesis read or write. -/
structure AgentState where
  user_query : String
  ambiguities : List String
  execution_plan : List ExecutionStep
  sql_queries : List String
  query_results : List QueryResult
  computed_metrics : Metrics
  insights : List String
  chart_config : Option ChartConfig
  chart_data : Option Rows
  final_response : String
  response_metadata : Option RespMeta
  errors : List String
deriving DecidableEq

/-- The external collaborators, as the oracle functions the core calls:
`dbExecute` is DatabaseManager.execute_query (row records and column names, or
an exception message), `dbValidate` is DatabaseManager.validate_query (`none`
means the EXPLAIN dry-run succeeded), `compute` stands for the pandas/scipy
computations of the analysis agent (lines 41-55 of analysis_agent.py, keyed by
the analysis type), `numericCols`/`objectCols` are the pandas dtype
classification `select_dtypes`, `buildChart` stands for the per-type plotly
chart builders together with their internal try/except (which returns None on
any builder exception) and the figure serialisation, `promptOf` is
`_create_synthesis_prompt`, and `llm` is the completion service call. -/
structure Collab where
  dbExecute : String → Except String (Rows × List String)
  dbValidate : String → Option String
  compute : String → Rows → Except String Metrics
  numericCols : Rows → List String
  objectCols : Rows → List String
  buildChart : String → Rows → Option (String × String)
  promptOf : String → List QueryResult → Metrics → String
  llm : String → Except String String

/-- Python truthiness of `step.get("error")`: an absent error or an empty
error string is falsy. -/
def errTruthy : Option String → Bool
  | none => false
  | some s => !(s == "")

/-- The fixed denylist of data_agent.py line 96, in source order. -/
def dangerous_keywords : List String :=
  ["drop", "delete", "truncate", "insert", "update", "alter"]

/-- `DataRetrievalAgent._validate_query` (data_agent.py lines 85-110): first
the dangerous-keyword denylist over the lowercased query, then the
table-reference check, then the backend dry-run. -/
def validate_query (c : Collab) (sql_query : String) : Bool × String :=
  let sql_lower := lower sql_query
  match dangerous_keywords.find? (fun kw => strContains sql_lower kw) with
  | some kw => (false, "Dangerous operation not allowed: " ++ kw)
  | none =>
    if !(strContains sql_lower "sp500_companies") then
      (false, "Query must reference sp500_companies table")
    else
      match c.dbValidate sql_query with
      | some err => (false, err)
      | none => (true, "")

/-- The query string `step.get("result")` holds, mirroring the Python
truthiness test `if not sql_query` (line 39 of data_agent.py): `none` when the
payload is absent, the empty string, or not a query string. -/
def sqlOf : Option StepResult → Option String
  | some (StepResult.query q) => if q == "" then none else some q
  | _ => none

/-- `DataRetrievalAgent.execute_retrieval_step` (data_agent.py lines 23-83).
Returns the updated state and the updated step record (the Python code
mutates both in place). -/
def execute_retrieval_step (c : Collab) (state : AgentState) (step : ExecutionStep) :
    AgentState × ExecutionStep :=
  match sqlOf step.result with
  | none =>
      ({ state with errors := state.errors ++ ["Data retrieval failed: No SQL query"] },
       { step with error := some "No SQL query specified", completed := true })
  | some sql_query =>
      match validate_query c sql_query with
      | (false, error_msg) =>
          ({ state with errors := state.errors ++ ["Query validation failed: " ++ error_msg] },
           { step with error := some ("Invalid query: " ++ error_msg), completed := true })
      | (true, _) =>
          match c.dbExecute sql_query with
          | Except.error e =>
              ({ state with errors := state.errors ++ ["Query execution error: " ++ e] },
               { step with error := some e, completed := true })
          | Except.ok (rows, cols) =>
              let result_dict : QueryResult :=
                { step_id := step.step_id, sql_query := sql_query, data := rows,
                  row_count := rows.length, columns := cols }
              ({ state with
                  sql_queries := state.sql_queries ++ [sql_query],
                  query_results := state.query_results ++ [result_dict] },
               { step with result := some (StepResult.retrieval result_dict), completed := true })

/-- `AnalysisAgent._determine_analysis_type` (analysis_agent.py lines 71-84). -/
def determine_analysis_type (description : String) : String :=
  let desc_lower := lower description
  if ["average", "mean", "median", "sum", "total"].any (fun w => strContains desc_lower w) then
    "statistics"
  else if ["compare", "comparison", "versus", "vs"].any (fun w => strContains desc_lower w) then
    "comparison"
  else if ["correlation", "relationship"].any (fun w => strContains desc_lower w) then
    "correlation"
  else if ["rank", "top", "bottom", "highest", "lowest"].any (fun w => strContains desc_lower w) then
    "ranking"
  else
    "general"

/-- `AnalysisAgent.execute_analysis_step` (analysis_agent.py lines 18-69).
Note the empty `query_results` branch (lines 33-36) sets the step error and
completion flag but does not touch the global errors list. -/
def execute_analysis_step (c : Collab) (state : AgentState) (step : ExecutionStep) :
    AgentState × ExecutionStep :=
  match state.query_results.getLast? with
  | none =>
      (state, { step with error := some "No data available for analysis", completed := true })
  | some latest_result =>
      let analysis_type := determine_analysis_type step.description
      match c.compute analysis_type latest_result.data with
      | Except.ok result =>
          ({ state with computed_metrics := dictUpdate state.computed_metrics result },
           { step with result := some (StepResult.metrics result), completed := true })
      | Except.error e =>
          ({ state with errors := state.errors ++ ["Analysis error: " ++ e] },
           { step with error := some e, completed := true })

/-- `VisualizationAgent._determine_chart_type` (visualization_agent.py lines
73-105): description keywords first, then column-type inference. -/
def determine_chart_type (c : Collab) (rows : Rows) (description : String) : String :=
  let desc_lower := lower description
  if strContains desc_lower "bar" then "bar"
  else if strContains desc_lower "line" then "line"
  else if strContains desc_lower "pie" then "pie"
  else if strContains desc_lower "scatter" then "scatter"
  else if strContains desc_lower "histogram" then "histogram"
  else
    let numeric_cols := c.numericCols rows
    let categorical_cols := c.objectCols rows
    if 1 ≤ categorical_cols.length ∧ 1 ≤ numeric_cols.length then "bar"
    else if 2 ≤ numeric_cols.length then "scatter"
    else if numeric_cols.length == 1 then "histogram"
    else "table"

/-- `VisualizationAgent._create_chart` (visualization_agent.py lines 107-129):
an empty dataframe yields no figure; otherwise the per-type builders run (the
oracle already folds in their internal try/except), and an unknown chart type
yields no figure. -/
def create_chart (c : Collab) (rows : Rows) (chart_type : String) : Option (String × String) :=
  if rows.length == 0 then none
  else if chart_type ∈ ["bar", "line", "pie", "scatter", "histogram"] then
    c.buildChart chart_type rows
  else none

/-- `VisualizationAgent.execute_visualization_step` (visualization_agent.py
lines 18-71).  As in the analysis handler, the empty `query_results` branch
does not touch the global errors list; when `_create_chart` returns no figure
the step is marked completed with the state untouched. -/
def execute_visualization_step (c : Collab) (state : AgentState) (step : ExecutionStep) :
    AgentState × ExecutionStep :=
  match state.query_results.getLast? with
  | none =>
      (state, { step with error := some "No data available for visualization", completed := true })
  | some latest_result =>
      let chart_type := determine_chart_type c latest_result.data step.description
      match create_chart c latest_result.data chart_type with
      | some fig =>
          let chart_config : ChartConfig := { type := chart_type, data := fig.1, html := fig.2 }
          ({ state with
              chart_config := some chart_config,
              chart_data := some latest_result.data },
           { step with result := some (StepResult.chart chart_config), completed := true })
      | none =>
          (state, { step with completed := true })

/-- `SynthesisAgent._generate_clarification_request`, enumeration body:
Python `enumerate(ambiguities, 1)` rendered line by line. -/
def enumerateFrom : Nat → List String → String
  | _, [] => ""
  | i, x :: rest => toString i ++ ". " ++ x ++ "\n" ++ enumerateFrom (i + 1) rest

/-- `SynthesisAgent._generate_clarification_request`
(synthesis_agent.py lines 136-142). -/
def generate_clarification_request (ambiguities : List String) : String :=
  "I need some clarification to answer your question accurately:\n\n"
    ++ enumerateFrom 1 ambiguities
    ++ "\nCould you provide more details?"

/-- `SynthesisAgent._generate_error_response` (synthesis_agent.py lines
144-153): the fixed generic failure explanation. -/
def generate_error_response : String :=
  "I encountered some difficulties processing your request. This might be because:\n- The information requested isn't available in the dataset\n- The query was too complex or ambiguous\n- There was a technical issue\n\nCould you try rephrasing your question or being more specific?"

/-- The LLM-backed branch of `SynthesisAgent.synthesize_response`
(synthesis_agent.py lines 56-81): build the prompt, call the completion
service, and on failure fall back to the fixed apology while appending to the
global errors list. -/
def synthesis_llm_branch (c : Collab) (state : AgentState) : AgentState :=
  let prompt := c.promptOf state.user_query state.query_results state.computed_metrics
  match c.llm prompt with
  | Except.ok response =>
      { state with
          final_response := response,
          response_metadata := some
            { queries_executed := state.query_results.length,
              rows_processed := (state.query_results.map (fun r => r.row_count)).sum,
              has_visualization := state.chart_config.isSome } }
  | Except.error e =>
      { state with
          final_response :=
            "I encountered an error generating the response. Please try rephrasing your question.",
          errors := state.errors ++ ["Synthesis error: " ++ e] }

/-- `SynthesisAgent.synthesize_response` (synthesis_agent.py lines 26-82):
clarification branch first, then the errors-without-results branch, then the
completion service. -/
def synthesize_response (c : Collab) (state : AgentState) : AgentState :=
  if state.ambiguities ≠ [] then
    { state with final_response := generate_clarification_request state.ambiguities }
  else if state.errors ≠ [] ∧ state.query_results = [] then
    { state with final_response := generate_error_response }
  else
    synthesis_llm_branch c state

/-- `MultiAgentOrchestrator._dependencies_met` (orchestrator.py lines
112-122): scan the plan and fail on any step whose id is among the dependency
ids and which is not completed or has a truthy error.  Steps whose id is not
in the plan are never examined, and the error test is Python truthiness. -/
def dependencies_met (plan : List ExecutionStep) (dependency_ids : List Int) : Bool :=
  if dependency_ids.isEmpty then true
  else plan.all (fun st =>
    if st.step_id ∈ dependency_ids then st.completed && !(errTruthy st.error) else true)

/-- The executor's running data: the threaded state plus, as proof
instrumentation, the ordered list of (plan index, step id) pairs dispatched to
a typed handler. -/
structure ExecResult where
  state : AgentState
  dispatched : List (Nat × Int)
deriving DecidableEq

/-- Write the handler-updated step record back into the plan at its index
(the Python code mutates the step dict in place inside the plan list). -/
def setStep (state : AgentState) (i : Nat) (s : ExecutionStep) : AgentState :=
  { state with execution_plan := state.execution_plan.set i s }

/-- One iteration of the executor's loop body (orchestrator.py lines 75-103)
at plan index `i`: skip completed steps, skip steps whose dependencies are not
met, otherwise dispatch on the agent type (steps of any other type are only
marked completed, line 97). -/
def execStepAt (c : Collab) (er : ExecResult) (i : Nat) : ExecResult :=
  match er.state.execution_plan[i]? with
  | none => er
  | some step =>
    if step.completed then er
    else if !(dependencies_met er.state.execution_plan step.dependencies) then er
    else
      match step.agent_type with
      | AgentType.data_retrieval =>
          let r := execute_retrieval_step c er.state step
          { state := setStep r.1 i r.2, dispatched := er.dispatched ++ [(i, step.step_id)] }
      | AgentType.analysis =>
          let r := execute_analysis_step c er.state step
          { state := setStep r.1 i r.2, dispatched := er.dispatched ++ [(i, step.step_id)] }
      | AgentType.visualization =>
          let r := execute_visualization_step c er.state step
          { state := setStep r.1 i r.2, dispatched := er.dispatched ++ [(i, step.step_id)] }
      | _ =>
          { state := setStep er.state i { step with completed := true },
            dispatched := er.dispatched }

/-- The executor's loop truncated to its first `n` iterations. -/
def execUpTo (c : Collab) (state : AgentState) (n : Nat) : ExecResult :=
  (List.range n).foldl (execStepAt c) { state := state, dispatched := [] }

/-- `MultiAgentOrchestrator._executor_node` (orchestrator.py lines 69-105):
one pass over the plan in list order. -/
def executor_node (c : Collab) (state : AgentState) : ExecResult :=
  execUpTo c state state.execution_plan.length

/-- `b` extends `a`: the append-only evolution of a provenance field. -/
abbrev ListExt {α : Type} (a b : List α) : Prop := ∃ t, b = a ++ t

/-- The append-only fields of the state (`errors`, `generatedQueries` alias
`sql_queries`, `queryResults`, `insights`) all extend between two states. -/
abbrev StateExt (s1 s2 : AgentState) : Prop :=
  ListExt s1.errors s2.errors ∧ ListExt s1.sql_queries s2.sql_queries ∧
    ListExt s1.query_results s2.query_results ∧ ListExt s1.insights s2.insights

/-- A plan entry that blocks its dependents: not completed, or completed
with a truthy (non-empty) error. -/
abbrev badStep (s : ExecutionStep) : Prop :=
  s.completed = false ∨ errTruthy s.error = true

/-- A fully concrete collaborator record, for closed evaluations: the dry-run
accepts every query, the backend execution fails with a fixed message, the
analysis computation fails, no chart can be built, the completion service
fails. -/
def stubCollab : Collab where
  dbExecute := fun _ => Except.error "db offline"
  dbValidate := fun _ => none
  compute := fun _ _ => Except.error "na"
  numericCols := fun _ => []
  objectCols := fun _ => []
  buildChart := fun _ _ => none
  promptOf := fun _ _ _ => ""
  llm := fun _ => Except.error "na"

/-- Like `stubCollab` but the backend execution raises an exception whose
message is the empty string (Python `str(e)` of a bare exception). -/
def emptyMsgCollab : Collab :=
  { stubCollab with dbExecute := fun _ => Except.error "" }

/-- The fields of `create_initial_state` (state.py lines 93-114) that this
embedding models. -/
def initState : AgentState where
  user_query := "q"
  ambiguities := []
  execution_plan := []
  sql_queries := []
  query_results := []
  computed_metrics := []
  insights := []
  chart_config := none
  chart_data := none
  final_response := ""
  response_metadata := none
  errors := []

/-- A fresh data-retrieval step holding a well-formed query. -/
def retrievalStep : ExecutionStep where
  step_id := 1
  agent_type := AgentType.data_retrieval
  description := "get data"
  dependencies := []
  completed := false
  result := some (StepResult.query "SELECT * FROM sp500_companies")
  error := none

/-- A fresh analysis step depending on step 1. -/
def analysisStep : ExecutionStep where
  step_id := 2
  agent_type := AgentType.analysis
  description := "compute average metrics"
  dependencies := [1]
  completed := false
  result := none
  error := none

/-- Two-step fixture: a retrieval step and an analysis step depending on it. -/
def twoStepState : AgentState :=
  { initState with execution_plan := [retrievalStep, analysisStep] }

/-- Fixture whose only step names dependency 99, an id no plan step carries. -/
def missingDepState : AgentState :=
  { initState with execution_plan := [{ retrievalStep with dependencies := [99] }] }

/-- Fixture whose plan lists step id 2 before step id 1. -/
def unorderedState : AgentState :=
  { initState with
      execution_plan := [{ retrievalStep with step_id := 2 }, { retrievalStep with step_id := 1 }] }

/-- An analysis step that depends on the later step id 7. -/
def fwdStep : ExecutionStep :=
  { analysisStep with step_id := 1, dependencies := [7] }

/-- A retrieval step carrying the id 7. -/
def fwdDep7 : ExecutionStep :=
  { retrievalStep with step_id := 7 }

/-- Fixture whose first plan entry depends on the later step id 7. -/
def forwardDepState : AgentState :=
  { initState with execution_plan := [fwdStep, fwdDep7] }

/-- Fixture with a pending ambiguity and a pending error. -/
def clarifState : AgentState :=
  { initState with ambiguities := ["which year?"], errors := ["boom"] }

/-- A retrieval step whose query names the wrong table. -/
def wrongTableStep : ExecutionStep :=
  { retrievalStep with result := some (StepResult.query "SELECT * FROM companies") }

/-- A fresh visualization step. -/
def vizStep : ExecutionStep where
  step_id := 3
  agent_type := AgentType.visualization
  description := "plot the data"
  dependencies := []
  completed := false
  result := none
  error := none

/-- A retrieval result carrying zero data rows. -/
def emptyDataResult : QueryResult where
  step_id := 1
  sql_query := "SELECT * FROM sp500_companies"
  data := []
  row_count := 0
  columns := []

/-- Fixture whose latest query result has zero data rows. -/
def emptyDataState : AgentState :=
  { initState with query_results := [emptyDataResult] }

/-! ### Basic lemmas about the embedding -/

theorem listExt_refl {α : Type} (a : List α) : ListExt a a := ⟨[], by simp⟩

theorem listExt_app {α : Type} (a t : List α) : ListExt a (a ++ t) := ⟨t, rfl⟩

theorem listExt_trans {α : Type} {a b c : List α} (h1 : ListExt a b) (h2 : ListExt b c) :
    ListExt a c := by
  obtain ⟨t1, rfl⟩ := h1
  obtain ⟨t2, rfl⟩ := h2
  exact ⟨t1 ++ t2, by simp⟩

theorem stateExt_refl (s : AgentState) : StateExt s s :=
  ⟨listExt_refl _, listExt_refl _, listExt_refl _, listExt_refl _⟩

theorem stateExt_trans {s1 s2 s3 : AgentState} (h1 : StateExt s1 s2) (h2 : StateExt s2 s3) :
    StateExt s1 s3 :=
  ⟨listExt_trans h1.1 h2.1, listExt_trans h1.2.1 h2.2.1, listExt_trans h1.2.2.1 h2.2.2.1,
    listExt_trans h1.2.2.2 h2.2.2.2⟩

theorem retrieval_plan_eq (c : Collab) (s : AgentState) (t : ExecutionStep) :
    (execute_retrieval_step c s t).1.execution_plan = s.execution_plan := by
  simp only [execute_retrieval_step]
  repeat' split
  all_goals rfl

theorem retrieval_completed (c : Collab) (s : AgentState) (t : ExecutionStep) :
    (execute_retrieval_step c s t).2.completed = true := by
  simp only [execute_retrieval_step]
  repeat' split
  all_goals rfl

theorem retrieval_id (c : Collab) (s : AgentState) (t : ExecutionStep) :
    (execute_retrieval_step c s t).2.step_id = t.step_id := by
  simp only [execute_retrieval_step]
  repeat' split
  all_goals rfl

theorem retrieval_ext (c : Collab) (s : AgentState) (t : ExecutionStep) :
    StateExt s (execute_retrieval_step c s t).1 := by
  simp only [execute_retrieval_step]
  repeat' split
  all_goals refine ⟨?_, ?_, ?_, ?_⟩ <;>
    first
      | exact ⟨_, rfl⟩
      | exact ⟨[], (List.append_nil _).symm⟩

theorem analysis_plan_eq (c : Collab) (s : AgentState) (t : ExecutionStep) :
    (execute_analysis_step c s t).1.execution_plan = s.execution_plan := by
  simp only [execute_analysis_step]
  repeat' split
  all_goals rfl

theorem analysis_completed (c : Collab) (s : AgentState) (t : ExecutionStep) :
    (execute_analysis_step c s t).2.completed = true := by
  simp only [execute_analysis_step]
  repeat' split
  all_goals rfl

theorem analysis_id (c : Collab) (s : AgentState) (t : ExecutionStep) :
    (execute_analysis_step c s t).2.step_id = t.step_id := by
  simp only [execute_analysis_step]
  repeat' split
  all_goals rfl

theorem analysis_ext (c : Collab) (s : AgentState) (t : ExecutionStep) :
    StateExt s (execute_analysis_step c s t).1 := by
  simp only [execute_analysis_step]
  repeat' split
  all_goals refine ⟨?_, ?_, ?_, ?_⟩ <;>
    first
      | exact ⟨_, rfl⟩
      | exact ⟨[], (List.append_nil _).symm⟩

theorem viz_plan_eq (c : Collab) (s : AgentState) (t : ExecutionStep) :
    (execute_visualization_step c s t).1.execution_plan = s.execution_plan := by
  simp only [execute_visualization_step]
  repeat' split
  all_goals rfl

theorem viz_completed (c : Collab) (s : AgentState) (t : ExecutionStep) :
    (execute_visualization_step c s t).2.completed = true := by
  simp only [execute_visualization_step]
  repeat' split
  all_goals rfl

theorem viz_id (c : Collab) (s : AgentState) (t : ExecutionStep) :
    (execute_visualization_step c s t).2.step_id = t.step_id := by
  simp only [execute_visualization_step]
  repeat' split
  all_goals rfl

theorem viz_ext (c : Collab) (s : AgentState) (t : ExecutionStep) :
    StateExt s (execute_visualization_step c s t).1 := by
  simp only [execute_visualization_step]
  repeat' split
  all_goals refine ⟨?_, ?_, ?_, ?_⟩ <;>
    first
      | exact ⟨_, rfl⟩
      | exact ⟨[], (List.append_nil _).symm⟩

theorem synthesize_ext (c : Collab) (s : AgentState) :
    StateExt s (synthesize_response c s) := by
  simp only [synthesize_response, synthesis_llm_branch]
  repeat' split
  all_goals refine ⟨?_, ?_, ?_, ?_⟩ <;>
    first
      | exact ⟨_, rfl⟩
      | exact ⟨[], (List.append_nil _).symm⟩

/-! ### Executor infrastructure lemmas -/

theorem setStep_plan (s : AgentState) (i : Nat) (x : ExecutionStep) :
    (setStep s i x).execution_plan = s.execution_plan.set i x := rfl

theorem stateExt_setStep (s : AgentState) (i : Nat) (x : ExecutionStep) :
    StateExt s (setStep s i x) :=
  ⟨⟨[], (List.append_nil _).symm⟩, ⟨[], (List.append_nil _).symm⟩,
    ⟨[], (List.append_nil _).symm⟩, ⟨[], (List.append_nil _).symm⟩⟩

/-- The complete case analysis of one executor iteration: either the step is
skipped (index out of range, already completed, or dependencies not met) and
the execution state is unchanged, or the step is dispatched, its plan slot is
overwritten with a record marked completed with the same step id, the
append-only state fields only grow, and at most the pair (index, id) is
appended to the dispatch trace. -/
theorem execStepAt_cases (c : Collab) (er : ExecResult) (i : Nat) :
    (execStepAt c er i = er ∧
      (er.state.execution_plan[i]? = none ∨
        (∃ s, er.state.execution_plan[i]? = some s ∧ s.completed = true) ∨
        (∃ s, er.state.execution_plan[i]? = some s ∧ s.completed = false ∧
          dependencies_met er.state.execution_plan s.dependencies = false))) ∨
    (∃ step s', er.state.execution_plan[i]? = some step ∧
      step.completed = false ∧
      dependencies_met er.state.execution_plan step.dependencies = true ∧
      (execStepAt c er i).state.execution_plan = er.state.execution_plan.set i s' ∧
      s'.completed = true ∧
      s'.step_id = step.step_id ∧
      StateExt er.state (execStepAt c er i).state ∧
      ((execStepAt c er i).dispatched = er.dispatched ++ [(i, step.step_id)] ∨
        (execStepAt c er i).dispatched = er.dispatched)) := by
  unfold execStepAt
  split
  · next h => exact Or.inl ⟨rfl, Or.inl h⟩
  · next step h =>
    split
    · next hc => exact Or.inl ⟨rfl, Or.inr (Or.inl ⟨step, h, hc⟩)⟩
    · next hc =>
      split
      · next hd =>
        refine Or.inl ⟨rfl, Or.inr (Or.inr ⟨step, h, ?_, ?_⟩)⟩
        · exact Bool.eq_false_iff.mpr hc
        · simpa using hd
      · next hd =>
        have hc' : step.completed = false := Bool.eq_false_iff.mpr hc
        have hd' : dependencies_met er.state.execution_plan step.dependencies = true := by
          simpa using hd
        split
        · refine Or.inr ⟨step, (execute_retrieval_step c er.state step).2, h, hc', hd', ?_, ?_, ?_, ?_, ?_⟩
          · rw [setStep_plan, retrieval_plan_eq]
          · exact retrieval_completed c er.state step
          · exact retrieval_id c er.state step
          · exact stateExt_trans (retrieval_ext c er.state step)
              (stateExt_setStep (execute_retrieval_step c er.state step).1 i _)
          · exact Or.inl rfl
        · refine Or.inr ⟨step, (execute_analysis_step c er.state step).2, h, hc', hd', ?_, ?_, ?_, ?_, ?_⟩
          · rw [setStep_plan, analysis_plan_eq]
          · exact analysis_completed c er.state step
          · exact analysis_id c er.state step
          · exact stateExt_trans (analysis_ext c er.state step)
              (stateExt_setStep (execute_analysis_step c er.state step).1 i _)
          · exact Or.inl rfl
        · refine Or.inr ⟨step, (execute_visualization_step c er.state step).2, h, hc', hd', ?_, ?_, ?_, ?_, ?_⟩
          · rw [setStep_plan, viz_plan_eq]
          · exact viz_completed c er.state step
          · exact viz_id c er.state step
          · exact stateExt_trans (viz_ext c er.state step)
              (stateExt_setStep (execute_visualization_step c er.state step).1 i _)
          · exact Or.inl rfl
        · refine Or.inr ⟨step, { step with completed := true }, h, hc', hd', ?_, rfl, rfl, ?_, Or.inr rfl⟩
          · rw [setStep_plan]
          · exact stateExt_setStep er.state i _

theorem execStepAt_skip (c : Collab) (er : ExecResult) (i : Nat) {s : ExecutionStep}
    (h : er.state.execution_plan[i]? = some s)
    (hskip : s.completed = true ∨ dependencies_met er.state.execution_plan s.dependencies = false) :
    execStepAt c er i = er := by
  rcases execStepAt_cases c er i with ⟨heq, _⟩ | ⟨step, s', hget, hcf, hdm, _⟩
  · exact heq
  · rw [h] at hget
    cases hget
    rcases hskip with hc | hd
    · rw [hcf] at hc; cases hc
    · rw [hdm] at hd; cases hd

theorem execUpTo_zero (c : Collab) (st : AgentState) :
    execUpTo c st 0 = { state := st, dispatched := [] } := rfl

theorem execUpTo_succ (c : Collab) (st : AgentState) (n : Nat) :
    execUpTo c st (n + 1) = execStepAt c (execUpTo c st n) n := by
  unfold execUpTo
  rw [List.range_succ, List.foldl_append]
  rfl

theorem execUpTo_plan_length (c : Collab) (st : AgentState) (n : Nat) :
    (execUpTo c st n).state.execution_plan.length = st.execution_plan.length := by
  induction n with
  | zero => rfl
  | succ n ih =>
    rw [execUpTo_succ]
    rcases execStepAt_cases c (execUpTo c st n) n with ⟨heq, _⟩ | ⟨_, _, _, _, _, hplan, _⟩
    · rw [heq]; exact ih
    · rw [hplan, List.length_set]; exact ih

theorem execUpTo_get_init (c : Collab) (st : AgentState) {n k : Nat} (h : n ≤ k) :
    (execUpTo c st n).state.execution_plan[k]? = st.execution_plan[k]? := by
  induction n with
  | zero => rfl
  | succ n ih =>
    have hk : n ≤ k := Nat.le_of_succ_le h
    have hne : n ≠ k := Nat.ne_of_lt (Nat.lt_of_succ_le h)
    rw [execUpTo_succ]
    rcases execStepAt_cases c (execUpTo c st n) n with ⟨heq, _⟩ | ⟨_, _, _, _, _, hplan, _⟩
    · rw [heq]; exact ih hk
    · rw [hplan, List.getElem?_set_ne hne]; exact ih hk

theorem execUpTo_get_stable (c : Collab) (st : AgentState) {n k : Nat} (h : k < n) :
    (execUpTo c st n).state.execution_plan[k]? =
      (execUpTo c st (k + 1)).state.execution_plan[k]? := by
  induction n with
  | zero => cases h
  | succ n ih =>
    rcases Nat.lt_or_ge k n with h1 | h2
    · rw [execUpTo_succ]
      rcases execStepAt_cases c (execUpTo c st n) n with ⟨heq, _⟩ | ⟨_, _, _, _, _, hplan, _⟩
      · rw [heq]; exact ih h1
      · rw [hplan, List.getElem?_set_ne (Nat.ne_of_gt h1)]; exact ih h1
    · have : k = n := Nat.le_antisymm (Nat.le_of_lt_succ h) h2
      subst this
      rfl

theorem stateExt_execStepAt (c : Collab) (er : ExecResult) (i : Nat) :
    StateExt er.state (execStepAt c er i).state := by
  rcases execStepAt_cases c er i with ⟨heq, _⟩ | ⟨_, _, _, _, _, _, _, _, hext, _⟩
  · rw [heq]; exact stateExt_refl _
  · exact hext

theorem execUpTo_ext_mono (c : Collab) (st : AgentState) {m n : Nat} (h : m ≤ n) :
    StateExt (execUpTo c st m).state (execUpTo c st n).state := by
  induction n with
  | zero =>
    have : m = 0 := Nat.le_zero.mp h
    subst this
    exact stateExt_refl _
  | succ n ih =>
    rcases Nat.lt_or_ge m (n + 1) with h1 | h2
    · have hm : m ≤ n := Nat.le_of_lt_succ h1
      rw [execUpTo_succ]
      exact stateExt_trans (ih hm) (stateExt_execStepAt c (execUpTo c st n) n)
    · have : m = n + 1 := Nat.le_antisymm h h2
      subst this
      exact stateExt_refl _

theorem execStepAt_dispatched_cases (c : Collab) (er : ExecResult) (i : Nat) :
    (execStepAt c er i).dispatched = er.dispatched ∨
      ∃ sid, (execStepAt c er i).dispatched = er.dispatched ++ [(i, sid)] := by
  rcases execStepAt_cases c er i with ⟨heq, _⟩ | ⟨step, _, _, _, _, _, _, _, _, hd⟩
  · rw [heq]; exact Or.inl rfl
  · rcases hd with h1 | h2
    · exact Or.inr ⟨step.step_id, h1⟩
    · exact Or.inl h2

theorem execUpTo_dispatched_lt (c : Collab) (st : AgentState) (n : Nat) :
    ∀ p ∈ (execUpTo c st n).dispatched, p.1 < n := by
  induction n with
  | zero => intro p hp; simp [execUpTo_zero] at hp
  | succ n ih =>
    intro p hp
    rw [execUpTo_succ] at hp
    rcases execStepAt_dispatched_cases c (execUpTo c st n) n with hd | ⟨sid, hd⟩
    · rw [hd] at hp; exact Nat.lt_succ_of_lt (ih p hp)
    · rw [hd] at hp
      rcases List.mem_append.mp hp with h1 | h2
      · exact Nat.lt_succ_of_lt (ih p h1)
      · simp at h2
        rw [h2]
        exact Nat.lt_succ_self n

theorem execUpTo_dispatched_sorted (c : Collab) (st : AgentState) (n : Nat) :
    List.Pairwise (fun a b => a.1 < b.1) (execUpTo c st n).dispatched := by
  induction n with
  | zero => simp [execUpTo_zero]
  | succ n ih =>
    rw [execUpTo_succ]
    rcases execStepAt_dispatched_cases c (execUpTo c st n) n with hd | ⟨sid, hd⟩
    · rw [hd]; exact ih
    · rw [hd]
      refine List.pairwise_append.mpr ⟨ih, List.pairwise_singleton _ _, ?_⟩
      intro a ha b hb
      simp at hb
      rw [hb]
      exact execUpTo_dispatched_lt c st n a ha

theorem not_dispatched_of_skip (c : Collab) (st : AgentState) (i : Nat)
    (hskip : execStepAt c (execUpTo c st i) i = execUpTo c st i) :
    ∀ n sid, (i, sid) ∉ (execUpTo c st n).dispatched := by
  intro n
  induction n with
  | zero => intro sid h; simp [execUpTo_zero] at h
  | succ n ih =>
    intro sid h
    rw [execUpTo_succ] at h
    by_cases hni : n = i
    · subst hni
      rw [hskip] at h
      exact ih sid h
    · rcases execStepAt_dispatched_cases c (execUpTo c st n) n with hd | ⟨sid2, hd⟩
      · rw [hd] at h; exact ih sid h
      · rw [hd] at h
        rcases List.mem_append.mp h with h1 | h2
        · exact ih sid h1
        · simp at h2
          exact hni h2.1.symm

theorem skip_plan_all (c : Collab) (st : AgentState) (i : Nat)
    (hskip : execStepAt c (execUpTo c st i) i = execUpTo c st i) (n : Nat) :
    (execUpTo c st n).state.execution_plan[i]? = st.execution_plan[i]? := by
  rcases le_or_lt n i with h | h

  · exact execUpTo_get_init c st h
  · rw [execUpTo_get_stable c st h, execUpTo_succ, hskip]
    exact execUpTo_get_init c st (Nat.le_refl i)

theorem execUpTo_ge_len (c : Collab) (st : AgentState) {m : Nat}
    (h : st.execution_plan.length ≤ m) :
    execUpTo c st m = executor_node c st := by
  unfold executor_node
  induction m with
  | zero =>
    have : st.execution_plan.length = 0 := Nat.le_zero.mp h
    rw [this]
  | succ m ih =>
    rcases Nat.lt_or_ge st.execution_plan.length (m + 1) with h1 | h2
    · have hm : st.execution_plan.length ≤ m := Nat.le_of_lt_succ h1
      have hnone : (execUpTo c st m).state.execution_plan[m]? = none := by
        apply List.getElem?_eq_none
        rw [execUpTo_plan_length]
        exact hm
      have : execStepAt c (execUpTo c st m) m = execUpTo c st m := by
        unfold execStepAt
        rw [hnone]
      rw [execUpTo_succ, this]
      exact ih hm
    · have : st.execution_plan.length = m + 1 := Nat.le_antisymm h h2
      rw [this]

theorem deps_not_met_of_bad (plan : List ExecutionStep) (deps : List Int) (j : Nat)
    (s : ExecutionStep) (hj : plan[j]? = some s) (hmem : s.step_id ∈ deps)
    (hbad : badStep s) : dependencies_met plan deps = false := by
  have hne : deps.isEmpty = false := by
    cases deps with
    | nil => simp at hmem
    | cons a l => rfl
  have hsmem : s ∈ plan := List.getElem?_mem hj
  have hall : plan.all (fun st =>
      if st.step_id ∈ deps then st.completed && !(errTruthy st.error) else true) = false := by
    rw [List.all_eq_false]
    refine ⟨s, hsmem, ?_⟩
    rw [if_pos hmem]
    intro htrue
    rcases (Bool.and_eq_true _ _).mp htrue with ⟨hc, he⟩
    rcases hbad with hb | hb
    · rw [hb] at hc; cases hc
    · rw [hb] at he; cases he
  unfold dependencies_met
  rw [hne]
  simpa using hall

/-- The value a plan index holds at every stage of the pass, given its final
value: an index changes at most once (at its own iteration), it then carries a
record marked completed with an unchanged step id, so a finally-blocking
dependency was blocking whenever it was examined. -/
theorem bad_at_all_times (c : Collab) (st : AgentState) (j : Nat) (dep : ExecutionStep)
    (hfin : (executor_node c st).state.execution_plan[j]? = some dep)
    (hbad : badStep dep) :
    ∀ m, ∃ depm, (execUpTo c st m).state.execution_plan[j]? = some depm ∧
      depm.step_id = dep.step_id ∧ badStep depm := by
  have hjlt : j < st.execution_plan.length := by
    by_contra hjge
    push_neg at hjge
    have hnone : (executor_node c st).state.execution_plan[j]? = none := by
      apply List.getElem?_eq_none
      unfold executor_node
      rw [execUpTo_plan_length]
      exact hjge
    rw [hnone] at hfin
    cases hfin
  have hsucc : (execUpTo c st (j + 1)).state.execution_plan[j]? = some dep := by
    have := execUpTo_get_stable c st (n := st.execution_plan.length) (k := j) hjlt
    unfold executor_node at hfin
    rw [this] at hfin
    exact hfin
  have hinit : (execUpTo c st j).state.execution_plan[j]? = st.execution_plan[j]? :=
    execUpTo_get_init c st (Nat.le_refl j)
  -- what iteration j did to index j
  have key : st.execution_plan[j]? = some dep ∨
      (∃ s0, st.execution_plan[j]? = some s0 ∧ s0.completed = false ∧
        s0.step_id = dep.step_id) := by
    rw [execUpTo_succ] at hsucc
    rcases execStepAt_cases c (execUpTo c st j) j with ⟨heq, _⟩ | ⟨step, s', hget, hcf, _, hplan, _, hs'id, _, _⟩
    · rw [heq, hinit] at hsucc
      exact Or.inl hsucc
    · have hlt : j < (execUpTo c st j).state.execution_plan.length := by
        rw [execUpTo_plan_length]; exact hjlt
      rw [hplan, List.getElem?_set_self hlt] at hsucc
      cases hsucc
      rw [hinit] at hget
      exact Or.inr ⟨step, hget, hcf, hs'id.symm⟩
  intro m
  rcases le_or_lt m j with hm | hm
  · have hval : (execUpTo c st m).state.execution_plan[j]? = st.execution_plan[j]? :=
      execUpTo_get_init c st hm
    rcases key with hk | ⟨s0, hk, hc0, hid0⟩
    · exact ⟨dep, by rw [hval, hk], rfl, hbad⟩
    · exact ⟨s0, by rw [hval, hk], hid0, Or.inl hc0⟩
  · refine ⟨dep, ?_, rfl, hbad⟩
    rw [execUpTo_get_stable c st hm]
    exact hsucc

/-! ### Claim theorems -/

theorem validate_query_congr (c c2 : Collab) (q : String)
    (h : c2.dbValidate = c.dbValidate) : validate_query c2 q = validate_query c q := by
  unfold validate_query
  rw [h]

/-- C1: for every query string and every backend, if the lowercased query
contains any keyword of the fixed denylist as a substring then the validation
gate rejects it with the dangerous-keyword message; the denylist rule is
applied first, so the rejection does not depend on the table-reference rule or
on the backend dry-run. -/
theorem c1_dangerous_keyword_rejected (c : Collab) (q kw : String)
    (hmem : kw ∈ dangerous_keywords) (hsub : strContains (lower q) kw = true) :
    ∃ kw2 ∈ dangerous_keywords, strContains (lower q) kw2 = true ∧
      validate_query c q = (false, "Dangerous operation not allowed: " ++ kw2) := by
  cases hfind : dangerous_keywords.find? (fun k => strContains (lower q) k) with
  | none =>
    exfalso
    have := List.find?_eq_none.mp hfind kw hmem
    simp [hsub] at this
  | some kw2 =>
    refine ⟨kw2, List.mem_of_find?_eq_some hfind, ?_, ?_⟩
    · simpa using List.find?_some hfind
    · simp only [validate_query]
      rw [hfind]

/-- Witness for C1: a concrete query holding the keyword drop is rejected with
the dangerous-keyword message, although it references the known table and the
dry-run oracle accepts everything. -/
theorem c1_witness :
    ("drop" ∈ dangerous_keywords ∧
      strContains (lower "DROP TABLE sp500_companies") "drop" = true) ∧
    ∃ kw2 ∈ dangerous_keywords, strContains (lower "DROP TABLE sp500_companies") kw2 = true ∧
      validate_query stubCollab "DROP TABLE sp500_companies"
        = (false, "Dangerous operation not allowed: " ++ kw2) :=
  ⟨⟨by decide, by decide⟩,
    c1_dangerous_keyword_rejected stubCollab "DROP TABLE sp500_companies" "drop"
      (by decide) (by decide)⟩

/-- C2 (counterexample): a step whose dependencies name the absent step id 99
is treated as ready — `_dependencies_met` only examines steps present in the
plan — and the executor dispatches it, against the claim that such a step is
not ready and not dispatched. -/
theorem c2_counterexample :
    ((99 : Int) ∉ missingDepState.execution_plan.map ExecutionStep.step_id) ∧
      missingDepState.execution_plan.map ExecutionStep.dependencies = [[99]] ∧
      dependencies_met missingDepState.execution_plan [99] = true ∧
      (executor_node stubCollab missingDepState).dispatched = [(0, 1)] :=
  ⟨by decide, by decide, by decide, by decide⟩

/-- C2 (amended): the scheduler treats a step as ready iff every step that is
present in the plan and whose id occurs in the dependency list is completed
with no non-empty error; dependency ids matching no plan step are ignored
(treated as satisfied). -/
theorem c2_dependencies_met_iff (plan : List ExecutionStep) (deps : List Int) :
    dependencies_met plan deps = true ↔
      ∀ s ∈ plan, s.step_id ∈ deps → (s.completed = true ∧ errTruthy s.error = false) := by
  unfold dependencies_met
  cases deps with
  | nil => simp
  | cons d ds =>
    simp only [List.isEmpty_cons, Bool.false_eq_true, if_false, List.all_eq_true]
    constructor
    · intro h s hs hmem
      have hp := h s hs
      rw [if_pos hmem] at hp
      rcases (Bool.and_eq_true _ _).mp hp with ⟨h1, h2⟩
      exact ⟨h1, by simpa using h2⟩
    · intro h s hs
      by_cases hmem : s.step_id ∈ (d :: ds)
      · rw [if_pos hmem]
        rcases h s hs hmem with ⟨h1, h2⟩
        simp [h1, h2]
      · rw [if_neg hmem]

/-- C4: when the validation gate rejects the query of a retrieval step, the
handler sets the step error, marks it completed, appends one entry to the
global errors list, leaves `sql_queries` and `query_results` unchanged, and
its outcome is independent of the execution backend (any collaborator with
the same dry-run oracle produces the same result — the backend execute is
never consulted). -/
theorem c4_rejected_query_not_executed (c : Collab) (st : AgentState)
    (step : ExecutionStep) (q : String) (hq : sqlOf step.result = some q)
    (hrej : (validate_query c q).1 = false) :
    execute_retrieval_step c st step
        = ({ st with errors := st.errors ++ ["Query validation failed: " ++ (validate_query c q).2] },
           { step with
              error := some ("Invalid query: " ++ (validate_query c q).2)
              completed := true }) ∧
      (execute_retrieval_step c st step).1.sql_queries = st.sql_queries ∧
      (execute_retrieval_step c st step).1.query_results = st.query_results ∧
      ∀ c2 : Collab, c2.dbValidate = c.dbValidate →
        execute_retrieval_step c2 st step = execute_retrieval_step c st step := by
  have main : ∀ c3 : Collab, c3.dbValidate = c.dbValidate →
      execute_retrieval_step c3 st step
        = ({ st with errors := st.errors ++ ["Query validation failed: " ++ (validate_query c q).2] },
           { step with
              error := some ("Invalid query: " ++ (validate_query c q).2)
              completed := true }) := by
    intro c3 h3
    unfold execute_retrieval_step
    rw [hq]
    dsimp only
    rw [validate_query_congr c c3 q h3]
    rcases hv : validate_query c q with ⟨b, msg⟩
    cases b
    · rfl
    · rw [hv] at hrej
      exact Bool.noConfusion hrej
  refine ⟨main c rfl, ?_, ?_, fun c2 h2 => (main c2 h2).trans (main c rfl).symm⟩
  · rw [main c rfl]
  · rw [main c rfl]

/-- Witness for C4: scenario A, a query naming the wrong table is rejected;
the step errors, one entry is appended, nothing is executed or recorded. -/
theorem c4_witness :
    (sqlOf wrongTableStep.result = some "SELECT * FROM companies" ∧
      (validate_query stubCollab "SELECT * FROM companies").1 = false) ∧
    (execute_retrieval_step stubCollab initState wrongTableStep
        = ({ initState with
              errors := initState.errors ++ ["Query validation failed: "
                ++ (validate_query stubCollab "SELECT * FROM companies").2] },
           { wrongTableStep with
              error := some ("Invalid query: "
                ++ (validate_query stubCollab "SELECT * FROM companies").2)
              completed := true }) ∧
      (execute_retrieval_step stubCollab initState wrongTableStep).1.sql_queries
          = initState.sql_queries ∧
      (execute_retrieval_step stubCollab initState wrongTableStep).1.query_results
          = initState.query_results ∧
      ∀ c2 : Collab, c2.dbValidate = stubCollab.dbValidate →
        execute_retrieval_step c2 initState wrongTableStep
          = execute_retrieval_step stubCollab initState wrongTableStep) :=
  ⟨⟨by decide, by decide⟩,
    c4_rejected_query_not_executed stubCollab initState wrongTableStep
      "SELECT * FROM companies" (by decide) (by decide)⟩

/-- C6: synthesis branch order — a non-empty ambiguity list yields the
clarification request enumerating exactly those ambiguities (winning over any
errors); otherwise non-empty errors with empty query results yield the fixed
generic failure explanation; only otherwise is the completion service
consulted. -/
theorem c6_synthesis_branch_order (c : Collab) (st : AgentState) :
    (st.ambiguities ≠ [] →
      synthesize_response c st
        = { st with final_response := generate_clarification_request st.ambiguities }) ∧
    (st.ambiguities = [] → st.errors ≠ [] → st.query_results = [] →
      synthesize_response c st = { st with final_response := generate_error_response }) ∧
    (st.ambiguities = [] → (st.errors = [] ∨ st.query_results ≠ []) →
      synthesize_response c st = synthesis_llm_branch c st) := by
  refine ⟨?_, ?_, ?_⟩
  · intro h
    unfold synthesize_response
    rw [if_pos h]
  · intro h1 h2 h3
    unfold synthesize_response
    rw [if_neg (fun hh => hh h1), if_pos ⟨h2, h3⟩]
  · intro h1 h2
    unfold synthesize_response
    rw [if_neg (fun hh => hh h1), if_neg ?_]
    rcases h2 with he | hq
    · exact fun hp => hp.1 he
    · exact fun hp => hq hp.2

/-- Witness for C6: scenario D, one pending ambiguity (with a pending error
as well) yields exactly the clarification request enumerating it. -/
theorem c6_witness :
    (clarifState.ambiguities ≠ []) ∧
    synthesize_response stubCollab clarifState
        = { clarifState with
            final_response := generate_clarification_request ["which year?"] } ∧
    generate_clarification_request ["which year?"]
        = "I need some clarification to answer your question accurately:\n\n1. which year?\n\nCould you provide more details?" :=
  ⟨by decide,
    (c6_synthesis_branch_order stubCollab clarifState).1 (by decide),
    by decide⟩

/-- C8 (counterexample): an analysis step run with empty `query_results`
fails — its step error is set and it is marked completed — but nothing is
appended to the global errors list, against the claim that every analysis
failure is recorded in both places. -/
theorem c8_counterexample :
    initState.query_results = [] ∧
      (execute_analysis_step stubCollab initState analysisStep).2.error
          = some "No data available for analysis" ∧
      (execute_analysis_step stubCollab initState analysisStep).2.completed = true ∧
      (execute_analysis_step stubCollab initState analysisStep).1.errors = [] :=
  ⟨rfl, by decide, by decide, by decide⟩

/-- C8 (amended): failures inside the handler try-blocks (backend execution
failures, analysis computation failures) are recorded on the step and
appended to the global errors list, and no handler propagates them; but the
empty-queryResults precondition failures of the analysis and visualization
handlers set only the step error and append nothing to the global list. -/
theorem c8_failures_recorded :
    (∀ (c : Collab) (st : AgentState) (step : ExecutionStep), st.query_results = [] →
      execute_analysis_step c st step
        = (st, { step with error := some "No data available for analysis", completed := true })) ∧
    (∀ (c : Collab) (st : AgentState) (step : ExecutionStep), st.query_results = [] →
      execute_visualization_step c st step
        = (st, { step with error := some "No data available for visualization", completed := true })) ∧
    (∀ (c : Collab) (st : AgentState) (step : ExecutionStep) (latest : QueryResult) (e : String),
      st.query_results.getLast? = some latest →
      c.compute (determine_analysis_type step.description) latest.data = Except.error e →
      execute_analysis_step c st step
        = ({ st with errors := st.errors ++ ["Analysis error: " ++ e] },
           { step with error := some e, completed := true })) ∧
    (∀ (c : Collab) (st : AgentState) (step : ExecutionStep) (q e : String),
      sqlOf step.result = some q →
      (validate_query c q).1 = true →
      c.dbExecute q = Except.error e →
      execute_retrieval_step c st step
        = ({ st with errors := st.errors ++ ["Query execution error: " ++ e] },
           { step with error := some e, completed := true })) := by
  refine ⟨?_, ?_, ?_, ?_⟩
  · intro c st step h
    unfold execute_analysis_step
    rw [h]
    rfl
  · intro c st step h
    unfold execute_visualization_step
    rw [h]
    rfl
  · intro c st step latest e hl hc
    unfold execute_analysis_step
    rw [hl]
    dsimp only
    rw [hc]
  · intro c st step q e hq hv he
    unfold execute_retrieval_step
    rw [hq]
    dsimp only
    rcases hval : validate_query c q with ⟨b, msg⟩
    cases b
    · rw [hval] at hv
      exact Bool.noConfusion hv
    · rw [he]

/-- Witness for C8: the analysis handler with empty results marks the step
failed without touching the global list, and with the last conjunct a backend
execution failure is recorded in both places. -/
theorem c8_witness :
    (execute_analysis_step stubCollab initState analysisStep
        = (initState,
           { analysisStep with error := some "No data available for analysis", completed := true })) ∧
    (execute_retrieval_step stubCollab twoStepState retrievalStep
        = ({ twoStepState with errors := twoStepState.errors ++ ["Query execution error: db offline"] },
           { retrievalStep with error := some "db offline", completed := true })) :=
  ⟨c8_failures_recorded.1 stubCollab initState analysisStep (by decide),
    c8_failures_recorded.2.2.2 stubCollab twoStepState retrievalStep
      "SELECT * FROM sp500_companies" "db offline" (by decide) (by decide) rfl⟩

/-- C10: a visualization step whose most recent query result carries zero
data rows is marked completed with the step record otherwise unchanged (no
error set) and the state entirely untouched: nothing appended to errors,
`chart_config` and `chart_data` unchanged — a silent no-op. -/
theorem c10_viz_empty_data_noop (c : Collab) (st : AgentState) (step : ExecutionStep)
    (latest : QueryResult) (hl : st.query_results.getLast? = some latest)
    (hd : latest.data = []) :
    execute_visualization_step c st step = (st, { step with completed := true }) := by
  unfold execute_visualization_step
  rw [hl]
  dsimp only
  simp [create_chart, hd]

/-- Witness for C10: the concrete empty-rows result leaves the state
untouched and only flips the completion flag of the step. -/
theorem c10_witness :
    (emptyDataState.query_results.getLast? = some emptyDataResult ∧
      emptyDataResult.data = []) ∧
    execute_visualization_step stubCollab emptyDataState vizStep
        = (emptyDataState, { vizStep with completed := true }) :=
  ⟨⟨by decide, rfl⟩,
    c10_viz_empty_data_noop stubCollab emptyDataState vizStep emptyDataResult
      (by decide) rfl⟩

/-- C3 (counterexample): in a two-step plan whose first step fails with an
exception whose message is the empty string, the dependency check reads the
empty error as falsy, so step 2 — although its dependency completed with its
error field set — is dispatched and marked completed, against the claim that
it is never dispatched and remains not completed. -/
theorem c3_counterexample :
    ((executor_node emptyMsgCollab twoStepState).state.execution_plan[0]?
        = some { retrievalStep with error := some "", completed := true }) ∧
      (executor_node emptyMsgCollab twoStepState).dispatched = [(0, 1), (1, 2)] ∧
      (executor_node emptyMsgCollab twoStepState).state.execution_plan[1]?
        = some { analysisStep with error := some "No data available for analysis", completed := true } :=
  ⟨by decide, by decide, by decide⟩

/-- C3 (amended): a step one of whose dependency ids matches a plan step that,
when the pass ends, is not completed or completed with a non-empty error, is
never dispatched to a handler and its plan entry is left exactly as it was
(in particular it is not marked completed and no handler appended an error
entry for it); a dependency that failed with an empty error message does not
block its dependents. -/
theorem c3_blocked_step_untouched (c : Collab) (st : AgentState) (i j : Nat)
    (step dep : ExecutionStep)
    (hstep : st.execution_plan[i]? = some step)
    (hdep : (executor_node c st).state.execution_plan[j]? = some dep)
    (hid : dep.step_id ∈ step.dependencies)
    (hbad : badStep dep) :
    (∀ sid, (i, sid) ∉ (executor_node c st).dispatched) ∧
      (executor_node c st).state.execution_plan[i]? = some step := by
  have hiplan : (execUpTo c st i).state.execution_plan[i]? = some step := by
    rw [execUpTo_get_init c st (Nat.le_refl i)]
    exact hstep
  by_cases hc : step.completed = true
  · have hskip := execStepAt_skip c (execUpTo c st i) i hiplan (Or.inl hc)
    refine ⟨fun sid => not_dispatched_of_skip c st i hskip _ sid, ?_⟩
    unfold executor_node
    rw [skip_plan_all c st i hskip]
    exact hstep
  · obtain ⟨depm, hdm, hdmid, hdmbad⟩ := bad_at_all_times c st j dep hdep hbad i
    have hmem : depm.step_id ∈ step.dependencies := by
      rw [hdmid]
      exact hid
    have hnm := deps_not_met_of_bad (execUpTo c st i).state.execution_plan
      step.dependencies j depm hdm hmem hdmbad
    have hskip := execStepAt_skip c (execUpTo c st i) i hiplan (Or.inr hnm)
    refine ⟨fun sid => not_dispatched_of_skip c st i hskip _ sid, ?_⟩
    unfold executor_node
    rw [skip_plan_all c st i hskip]
    exact hstep

/-- Witness for C3: scenario C — the backend call of step 1 fails (non-empty
message), so step 2 is never dispatched, keeps its initial record, and the
error list holds exactly the one entry of step 1. -/
theorem c3_witness :
    (twoStepState.execution_plan[1]? = some analysisStep ∧
      (executor_node stubCollab twoStepState).state.execution_plan[0]?
        = some { retrievalStep with error := some "db offline", completed := true } ∧
      ((1 : Int) ∈ analysisStep.dependencies) ∧
      badStep { retrievalStep with error := some "db offline", completed := true }) ∧
    ((∀ sid, (1, sid) ∉ (executor_node stubCollab twoStepState).dispatched) ∧
      (executor_node stubCollab twoStepState).state.execution_plan[1]? = some analysisStep) ∧
    (executor_node stubCollab twoStepState).state.errors
        = ["Query execution error: db offline"] ∧
    analysisStep.completed = false :=
  ⟨⟨by decide, by decide, by decide, by decide⟩,
    c3_blocked_step_untouched stubCollab twoStepState 1 0 analysisStep
      { retrievalStep with error := some "db offline", completed := true }
      (by decide) (by decide) (by decide) (by decide),
    by decide, by decide⟩

/-- C5 (counterexample): with a plan listing step id 2 before step id 1 the
executor dispatches id 2 first — it walks the plan in list position order,
not in ascending stepId order as the claim states. -/
theorem c5_counterexample :
    ((executor_node stubCollab unorderedState).dispatched.map Prod.snd = [2, 1]) ∧
      ¬ List.Pairwise (fun a b : Int => a ≤ b)
        ((executor_node stubCollab unorderedState).dispatched.map Prod.snd) :=
  ⟨by decide, by decide⟩

/-- C5 (amended): the executor makes exactly one pass over the plan in list
position order — the dispatch trace is strictly increasing in plan index, so
no step is visited twice — and a step that is not ready when visited (already
completed, or dependencies unmet at that moment) is never dispatched in the
invocation and its plan entry is left unchanged, even if its dependencies
complete later in the same pass. -/
theorem c5_single_pass_list_order (c : Collab) (st : AgentState) :
    List.Pairwise (fun a b => a.1 < b.1) (executor_node c st).dispatched ∧
      ∀ i s, st.execution_plan[i]? = some s →
        (s.completed = true ∨
          dependencies_met (execUpTo c st i).state.execution_plan s.dependencies = false) →
        (∀ sid, (i, sid) ∉ (executor_node c st).dispatched) ∧
          (executor_node c st).state.execution_plan[i]? = some s := by
  constructor
  · exact execUpTo_dispatched_sorted c st _
  · intro i s hs hsk
    have hiplan : (execUpTo c st i).state.execution_plan[i]? = some s := by
      rw [execUpTo_get_init c st (Nat.le_refl i)]
      exact hs
    have hskip := execStepAt_skip c (execUpTo c st i) i hiplan hsk
    refine ⟨fun sid => not_dispatched_of_skip c st i hskip _ sid, ?_⟩
    unfold executor_node
    rw [skip_plan_all c st i hskip]
    exact hs

/-- Witness for C5: the first plan entry depends on the later step id 7; it
is not ready when visited, is never dispatched and keeps its initial record,
although step 7 completes later in the very same pass. -/
theorem c5_witness :
    (forwardDepState.execution_plan[0]? = some fwdStep ∧
      dependencies_met (execUpTo stubCollab forwardDepState 0).state.execution_plan
        fwdStep.dependencies = false) ∧
    ((∀ sid, (0, sid) ∉ (executor_node stubCollab forwardDepState).dispatched) ∧
      (executor_node stubCollab forwardDepState).state.execution_plan[0]? = some fwdStep) ∧
    (executor_node stubCollab forwardDepState).state.execution_plan[1]?
        = some { fwdDep7 with error := some "db offline", completed := true } :=
  ⟨⟨by decide, by decide⟩,
    (c5_single_pass_list_order stubCollab forwardDepState).2 0 fwdStep
      (by decide) (Or.inr (by decide)),
    by decide⟩

/-- C9: after the pass, every plan entry is completed, or it was never
dispatched because its dependencies were not met when it was visited (and its
entry is exactly the initial one); every handler marks the step completed on
every path, so no dispatched step is left incomplete. -/
theorem c9_completed_or_never_dispatched (c : Collab) (st : AgentState) (i : Nat)
    (step_f : ExecutionStep)
    (hfin : (executor_node c st).state.execution_plan[i]? = some step_f) :
    step_f.completed = true ∨
      (st.execution_plan[i]? = some step_f ∧
        dependencies_met (execUpTo c st i).state.execution_plan step_f.dependencies = false ∧
        ∀ sid, (i, sid) ∉ (executor_node c st).dispatched) := by
  by_cases hc : step_f.completed = true
  · exact Or.inl hc
  · right
    have hilt : i < st.execution_plan.length := by
      by_contra hge
      push_neg at hge
      have hnone : (executor_node c st).state.execution_plan[i]? = none := by
        apply List.getElem?_eq_none
        unfold executor_node
        rw [execUpTo_plan_length]
        exact hge
      rw [hnone] at hfin
      cases hfin
    have hstable : (executor_node c st).state.execution_plan[i]?
        = (execStepAt c (execUpTo c st i) i).state.execution_plan[i]? := by
      unfold executor_node
      rw [execUpTo_get_stable c st hilt, execUpTo_succ]
    have hinit : (execUpTo c st i).state.execution_plan[i]? = st.execution_plan[i]? :=
      execUpTo_get_init c st (Nat.le_refl i)
    rcases execStepAt_cases c (execUpTo c st i) i with
      ⟨heq, hreason⟩ | ⟨step, s', hget, hc0, hd0, hplan, hs'c, hs'i, hext, hdisp⟩
    · rw [heq] at hstable
      have hstep0 : st.execution_plan[i]? = some step_f := by
        rw [← hinit, ← hstable]
        exact hfin
      rcases hreason with hnone | ⟨s, hs, hsc⟩ | ⟨s, hs, hscf, hsd⟩
      · rw [hinit, hstep0] at hnone
        exact Option.noConfusion hnone
      · exfalso
        rw [hinit, hstep0] at hs
        have hse : step_f = s := Option.some.inj hs
        rw [← hse] at hsc
        exact hc hsc
      · rw [hinit, hstep0] at hs
        have hse : step_f = s := Option.some.inj hs
        refine ⟨hstep0, ?_, fun sid => not_dispatched_of_skip c st i heq _ sid⟩
        rw [← hse] at hsd
        exact hsd
    · exfalso
      have hlt2 : i < (execUpTo c st i).state.execution_plan.length := by
        rw [execUpTo_plan_length]
        exact hilt
      rw [hplan, List.getElem?_set_self hlt2] at hstable
      rw [hstable] at hfin
      have hse : s' = step_f := Option.some.inj hfin
      rw [hse] at hs'c
      exact hc hs'c

/-- Witness for C9: in scenario C the final plan holds the completed failed
step 1 and the untouched step 2, whose dependency was unmet when visited and
which was never dispatched. -/
theorem c9_witness :
    ((executor_node stubCollab twoStepState).state.execution_plan[1]? = some analysisStep) ∧
    (analysisStep.completed = true ∨
      (twoStepState.execution_plan[1]? = some analysisStep ∧
        dependencies_met (execUpTo stubCollab twoStepState 1).state.execution_plan
          analysisStep.dependencies = false ∧
        ∀ sid, (1, sid) ∉ (executor_node stubCollab twoStepState).dispatched)) :=
  ⟨by decide,
    c9_completed_or_never_dispatched stubCollab twoStepState 1 analysisStep (by decide)⟩

/-- C7: within one invocation the append-only fields `errors`, `sql_queries`
(the generated queries), `query_results` and `insights` are monotone — after
any prefix of the executor pass each field extends its earlier value, and the
state after synthesis extends every intermediate state. -/
theorem c7_append_only_monotone (c : Collab) (st : AgentState) :
    (∀ m n, m ≤ n →
      StateExt (execUpTo c st m).state (execUpTo c st n).state) ∧
    ∀ m, StateExt (execUpTo c st m).state
        (synthesize_response c (executor_node c st).state) := by
  refine ⟨fun m n h => execUpTo_ext_mono c st h, fun m => ?_⟩
  rcases le_or_lt m st.execution_plan.length with h | h
  · refine stateExt_trans ?_ (synthesize_ext c _)
    unfold executor_node
    exact execUpTo_ext_mono c st h
  · rw [execUpTo_ge_len c st (Nat.le_of_lt h)]
    exact synthesize_ext c _

/-- Witness for C7: a concrete instantiation after the first step and at the
end of the pass of the two-step scenario. -/
theorem c7_witness :
    StateExt (execUpTo stubCollab twoStepState 0).state
        (execUpTo stubCollab twoStepState 1).state ∧
    StateExt (execUpTo stubCollab twoStepState 1).state
        (synthesize_response stubCollab (executor_node stubCollab twoStepState).state) :=
  ⟨(c7_append_only_monotone stubCollab twoStepState).1 0 1 (Nat.zero_le 1),
    (c7_append_only_monotone stubCollab twoStepState).2 1⟩

end Chatbot
